import Mathlib

/-!
Shallow embedding of the AutoIMS vehicle-service backend's workflow core
(controllers and routes for service requests, service jobs, parts usage,
inventory and billing), together with proofs about the claims of its
design specification.

Database rows are modelled as structures, the database as lists of rows
plus identity counters and a clock tick; each controller function becomes
a pure function from the database state to a result paired with the new
state.  Money is modelled as rationals; Python's `round(x, 2)` becomes
round-half-to-even at two decimal places on rationals.
-/

namespace AutoIMS

/-- A row of `vehicle_service.inventory`. -/
structure Part where
  part_id : Nat
  part_code : String
  unit_price : ℚ
  quantity_in_stock : ℤ
  reorder_level : ℤ
  last_updated : Nat
deriving Repr, DecidableEq

/-- A row of `vehicle_service.service_requests`. -/
structure ServiceRequest where
  request_id : Nat
  vehicle_id : Nat
  service_type : String
  problem_note : Option String
  priority : String
  status : String
  request_date : Nat
deriving Repr, DecidableEq

/-- A row of `vehicle_service.service_jobs`. -/
structure ServiceJob where
  job_id : Nat
  request_id : Nat
  employee_id : Option Nat
  job_status : String
  labor_charge : ℚ
  start_time : Option Nat
  end_time : Option Nat
deriving Repr, DecidableEq

/-- A row of `vehicle_service.job_parts_used`. -/
structure JobPartUsage where
  job_part_id : Nat
  job_id : Nat
  part_id : Nat
  quantity_used : ℤ
  unit_price_at_time : ℚ
deriving Repr, DecidableEq

/-- A row of `vehicle_service.billing`. -/
structure Bill where
  bill_id : Nat
  job_id : Nat
  subtotal_labor : ℚ
  subtotal_parts : ℚ
  tax : ℚ
  total_amount : ℚ
  payment_status : String
  bill_date : Nat
  payment_date : Option Nat
deriving Repr, DecidableEq

/-- The database state: the five workflow tables, generated-identity
counters for their serial primary keys, and a clock tick standing for
`CURRENT_TIMESTAMP` / `datetime.now()`. -/
structure DB where
  requests : List ServiceRequest
  jobs : List ServiceJob
  parts : List Part
  usages : List JobPartUsage
  bills : List Bill
  nextRequestId : Nat
  nextJobId : Nat
  nextUsageId : Nat
  nextBillId : Nat
  now : Nat
deriving Repr, DecidableEq

/-- Round half to even to an integer, the tie-breaking of Python's
built-in `round`. -/
def roundHalfEven (q : ℚ) : ℤ :=
  let f := ⌊q⌋
  let frac := q - f
  if frac < 1/2 then f
  else if 1/2 < frac then f + 1
  else if f % 2 = 0 then f else f + 1

/-- Python's `round(x, 2)` on the rational model. -/
def round2 (q : ℚ) : ℚ := (roundHalfEven (q * 100) : ℚ) / 100

/-- `DEFAULT_TAX_RATE = 0.18` from `controllers/billing.py`. -/
def DEFAULT_TAX_RATE : ℚ := 18/100

/-- `SELECT ... FROM inventory WHERE part_id = %s` with `fetchone()`. -/
def lookupPart (db : DB) (pid : Nat) : Option Part :=
  db.parts.find? (fun p => p.part_id == pid)

/-- `SELECT ... FROM service_jobs WHERE job_id = %s` with `fetchone()`. -/
def lookupJob (db : DB) (jid : Nat) : Option ServiceJob :=
  db.jobs.find? (fun j => j.job_id == jid)

/-- `SELECT ... FROM service_requests WHERE request_id = %s` with `fetchone()`. -/
def lookupRequest (db : DB) (rid : Nat) : Option ServiceRequest :=
  db.requests.find? (fun r => r.request_id == rid)

/-- `SELECT ... FROM billing WHERE bill_id = %s` with `fetchone()`. -/
def lookupBill (db : DB) (bid : Nat) : Option Bill :=
  db.bills.find? (fun b => b.bill_id == bid)

/-- `SELECT ... FROM billing WHERE job_id = %s` with `fetchone()`. -/
def lookupBillByJob (db : DB) (jid : Nat) : Option Bill :=
  db.bills.find? (fun b => b.job_id == jid)

/-- `SELECT ... FROM job_parts_used WHERE job_part_id = %s` with `fetchone()`. -/
def lookupUsage (db : DB) (uid : Nat) : Option JobPartUsage :=
  db.usages.find? (fun u => u.job_part_id == uid)

/-- `get_total_parts_cost` in `controllers/job_parts.py`:
`SELECT COALESCE(SUM(quantity_used * unit_price_at_time), 0) ... WHERE job_id = %s`. -/
def get_total_parts_cost (db : DB) (jid : Nat) : ℚ :=
  ((db.usages.filter (fun u => u.job_id == jid)).map
    (fun u => (u.quantity_used : ℚ) * u.unit_price_at_time)).sum

/-- `generate_bill` in `controllers/billing.py`.  Returns the
`(bill-or-None, error-or-None)` pair of the Python function together with
the post state. -/
def generate_bill (jid : Nat) (tax_rate : Option ℚ) (db : DB) :
    (Option Bill × Option String) × DB :=
  let rate := tax_rate.getD DEFAULT_TAX_RATE
  match lookupBillByJob db jid with
  | some _ => ((none, some "Bill already exists for this job"), db)
  | none =>
    match lookupJob db jid with
    | none => ((none, some "Job not found"), db)
    | some job =>
      let subtotal_labor := job.labor_charge
      let subtotal_parts := get_total_parts_cost db jid
      let subtotal := subtotal_labor + subtotal_parts
      let tax := round2 (subtotal * rate)
      let total_amount := round2 (subtotal + tax)
      let bill : Bill :=
        { bill_id := db.nextBillId, job_id := jid,
          subtotal_labor := subtotal_labor, subtotal_parts := subtotal_parts,
          tax := tax, total_amount := total_amount,
          payment_status := "Unpaid", bill_date := db.now, payment_date := none }
      ((some bill, none),
       { db with bills := db.bills ++ [bill], nextBillId := db.nextBillId + 1 })

/-- `update_bill` in `controllers/billing.py`: any provided amount
overrides the current value and `total_amount` is recomputed as the plain
(unrounded) sum of the three resulting fields. -/
def update_bill (bid : Nat) (subtotal_labor subtotal_parts tax : Option ℚ)
    (db : DB) : Option Bill × DB :=
  match lookupBill db bid with
  | none => (none, db)
  | some current =>
    let labor := subtotal_labor.getD current.subtotal_labor
    let parts := subtotal_parts.getD current.subtotal_parts
    let tax_amount := tax.getD current.tax
    let total_amount := labor + parts + tax_amount
    let bills' := db.bills.map (fun b =>
      if b.bill_id == bid then
        { b with subtotal_labor := labor, subtotal_parts := parts,
                 tax := tax_amount, total_amount := total_amount }
      else b)
    let db' := { db with bills := bills' }
    (lookupBill db' bid, db')

/-- `add_part_to_job` in `controllers/job_parts.py`: price snapshot,
sufficiency check, usage insert and inventory decrement in one
transaction. -/
def add_part_to_job (jid pid : Nat) (quantity_used : ℤ) (db : DB) :
    (Option JobPartUsage × Option String) × DB :=
  match lookupPart db pid with
  | none => ((none, some "Part not found"), db)
  | some part =>
    let unit_price := part.unit_price
    let current_stock := part.quantity_in_stock
    if current_stock < quantity_used then
      ((none, some ("Insufficient stock. Available: " ++ toString current_stock
          ++ ", Requested: " ++ toString quantity_used)), db)
    else
      let usage : JobPartUsage :=
        { job_part_id := db.nextUsageId, job_id := jid, part_id := pid,
          quantity_used := quantity_used, unit_price_at_time := unit_price }
      let parts' := db.parts.map (fun p =>
        if p.part_id == pid then
          { p with quantity_in_stock := p.quantity_in_stock - quantity_used,
                   last_updated := db.now }
        else p)
      ((some usage, none),
       { db with usages := db.usages ++ [usage], parts := parts',
                 nextUsageId := db.nextUsageId + 1 })

/-- `remove_part_from_job` in `controllers/job_parts.py`: deletes the
usage record and restores the original quantity to inventory. -/
def remove_part_from_job (uid : Nat) (db : DB) :
    (Bool × Option String) × DB :=
  match lookupUsage db uid with
  | none => ((false, some "Part usage record not found"), db)
  | some usage =>
    let usages' := db.usages.filter (fun u => u.job_part_id != uid)
    let parts' := db.parts.map (fun p =>
      if p.part_id == usage.part_id then
        { p with quantity_in_stock := p.quantity_in_stock + usage.quantity_used,
                 last_updated := db.now }
      else p)
    ((true, none), { db with usages := usages', parts := parts' })

/-- `update_stock` in `controllers/inventory.py`: adds the (possibly
negative) delta unconditionally. -/
def update_stock (pid : Nat) (quantity_change : ℤ) (db : DB) :
    Option Part × DB :=
  let parts' := db.parts.map (fun p =>
    if p.part_id == pid then
      { p with quantity_in_stock := p.quantity_in_stock + quantity_change,
               last_updated := db.now }
    else p)
  let db' := { db with parts := parts' }
  (lookupPart db' pid, db')

/-- `set_stock` in `controllers/inventory.py`: sets the quantity to an
absolute value. -/
def set_stock (pid : Nat) (new_quantity : ℤ) (db : DB) : Option Part × DB :=
  let parts' := db.parts.map (fun p =>
    if p.part_id == pid then
      { p with quantity_in_stock := new_quantity, last_updated := db.now }
    else p)
  let db' := { db with parts := parts' }
  (lookupPart db' pid, db')

/-- The JSON body accepted by the `PUT /inventory/<part_id>/stock` route:
either a `quantity_change` delta or an absolute `quantity`. -/
inductive StockPayload where
  | delta (quantity_change : ℤ)
  | absolute (quantity : ℤ)
deriving Repr, DecidableEq

/-- The observable response of the stock route. -/
structure StockRouteResult where
  httpStatus : Nat
  error : Option String
  item : Option Part
deriving Repr, DecidableEq

/-- `update_stock` route in `routes/inventory.py`: delta mode applies any
integer delta; absolute mode rejects a negative quantity. -/
def update_stock_route (pid : Nat) (payload : StockPayload) (db : DB) :
    StockRouteResult × DB :=
  if (lookupPart db pid).isNone then
    ({ httpStatus := 404, error := some "Item not found", item := none }, db)
  else
    match payload with
    | .delta qc =>
      let r := update_stock pid qc db
      ({ httpStatus := 200, error := none, item := r.1 }, r.2)
    | .absolute q =>
      if q < 0 then
        ({ httpStatus := 400, error := some "quantity cannot be negative",
           item := none }, db)
      else
        let r := set_stock pid q db
        ({ httpStatus := 200, error := none, item := r.1 }, r.2)

/-- The dict returned by `create_request` in
`controllers/service_requests.py`: the request row's fields merged with
the spawned job's id, status and employee. -/
structure CreateRequestResult where
  request : ServiceRequest
  job_id : Nat
  job_status : String
  employee_id : Option Nat
deriving Repr, DecidableEq

/-- `create_request` in `controllers/service_requests.py`: inserts the
request, reads back its generated id, and inserts a ServiceJob
referencing it with status `In Progress`, `start_time = now` and
`labor_charge = 0`, all committed together. -/
def create_request (vehicle_id : Nat) (service_type : String)
    (problem_note : Option String) (priority status : String)
    (assigned_employee_id : Option Nat) (db : DB) :
    CreateRequestResult × DB :=
  let req : ServiceRequest :=
    { request_id := db.nextRequestId, vehicle_id := vehicle_id,
      service_type := service_type, problem_note := problem_note,
      priority := priority, status := status, request_date := db.now }
  let job : ServiceJob :=
    { job_id := db.nextJobId, request_id := req.request_id,
      employee_id := assigned_employee_id, job_status := "In Progress",
      labor_charge := 0, start_time := some db.now, end_time := none }
  ({ request := req, job_id := job.job_id, job_status := job.job_status,
     employee_id := job.employee_id },
   { db with requests := db.requests ++ [req], jobs := db.jobs ++ [job],
             nextRequestId := db.nextRequestId + 1,
             nextJobId := db.nextJobId + 1 })

/-- `update_labor_charge` in `controllers/service_jobs.py`. -/
def update_labor_charge (jid : Nat) (labor_charge : ℚ) (db : DB) :
    Option ServiceJob × DB :=
  let jobs' := db.jobs.map (fun j =>
    if j.job_id == jid then { j with labor_charge := labor_charge } else j)
  let db' := { db with jobs := jobs' }
  (lookupJob db' jid, db')

/-- `update_job_status` in `controllers/service_jobs.py`: when the new
status is `Completed` and no end time is supplied, stamps `now`. -/
def update_job_status (jid : Nat) (status : String) (end_time : Option Nat)
    (db : DB) : Option ServiceJob × DB :=
  let et := if status == "Completed" && end_time.isNone then some db.now
            else end_time
  let jobs' := db.jobs.map (fun j =>
    if j.job_id == jid then { j with job_status := status, end_time := et }
    else j)
  let db' := { db with jobs := jobs' }
  (lookupJob db' jid, db')

/-- `update_request_status` in `controllers/service_requests.py` (the
plain status UPDATE, without the orchestrator). -/
def sr_update_request_status (rid : Nat) (status : String) (db : DB) :
    Option ServiceRequest × DB :=
  let reqs' := db.requests.map (fun r =>
    if r.request_id == rid then { r with status := status } else r)
  let db' := { db with requests := reqs' }
  (lookupRequest db' rid, db')

/-- `get_job_for_request` in `controllers/service_requests.py`:
`SELECT ... WHERE request_id = %s ORDER BY job_id DESC LIMIT 1`,
i.e. the referencing job with the greatest `job_id`. -/
def get_job_for_request (rid : Nat) (db : DB) : Option ServiceJob :=
  (db.jobs.filter (fun j => j.request_id == rid)).foldl
    (fun acc j =>
      match acc with
      | none => some j
      | some k => if k.job_id < j.job_id then some j else some k) none

/-- The status list accepted by the status-update route. -/
def valid_statuses : List String :=
  ["Pending", "In Progress", "Completed", "Cancelled"]

/-- The observable JSON response of the status-update route. -/
structure StatusRouteResult where
  httpStatus : Nat
  message : Option String
  error : Option String
  request : Option ServiceRequest
  job : Option ServiceJob
  bill : Option Bill
deriving Repr, DecidableEq

/-- `update_request_status` route in `routes/service_requests.py`
(TRIGGER 3): persists the new status; when it is `Completed`, finds the
request's job, updates its labor charge, completes it, and generates the
bill; a billing failure is not surfaced — the error from `generate_bill`
is dropped and the response still reports success. -/
def update_request_status_route (rid : Nat) (status : String)
    (labor_charge : ℚ) (db : DB) : StatusRouteResult × DB :=
  if (lookupRequest db rid).isNone then
    ({ httpStatus := 404, message := none,
       error := some "Service request not found",
       request := none, job := none, bill := none }, db)
  else if !(valid_statuses.contains status) then
    ({ httpStatus := 400, message := none,
       error := some "Invalid status. Must be one of: Pending, In Progress, Completed, Cancelled",
       request := none, job := none, bill := none }, db)
  else
    let r1 := sr_update_request_status rid status db
    let service_request := r1.1
    let db1 := r1.2
    if status == "Completed" then
      match get_job_for_request rid db1 with
      | none =>
        ({ httpStatus := 200, message := some "Status updated successfully",
           error := none, request := service_request, job := none,
           bill := none }, db1)
      | some job =>
        let db2 := (update_labor_charge job.job_id labor_charge db1).2
        let db3 := (update_job_status job.job_id "Completed" (some db1.now) db2).2
        let g := generate_bill job.job_id none db3
        let db4 := g.2
        match g.1.1 with
        | some b =>
          ({ httpStatus := 200,
             message := some "Status updated and bill generated successfully",
             error := none, request := service_request, job := some job,
             bill := lookupBill db4 b.bill_id }, db4)
        | none =>
          ({ httpStatus := 200, message := some "Status updated successfully",
             error := none, request := service_request, job := some job,
             bill := none }, db4)
    else
      ({ httpStatus := 200, message := some "Status updated successfully",
         error := none, request := service_request, job := none,
         bill := none }, db1)

/-! ## Invariants and helper lemmas -/

/-- At most one billing row per job: distinct list positions carry
distinct `job_id`s. -/
def atMostOneBillPerJob (db : DB) : Prop :=
  db.bills.Pairwise (fun b1 b2 => b1.job_id ≠ b2.job_id)

/-- All stock quantities are nonnegative. -/
def stockNonneg (db : DB) : Prop :=
  ∀ p ∈ db.parts, 0 ≤ p.quantity_in_stock

/-- All recorded usage quantities are nonnegative (the routes only let
positive quantities through to `add_part_to_job`). -/
def usagesNonneg (db : DB) : Prop :=
  ∀ u ∈ db.usages, 0 ≤ u.quantity_used

/-- `part_id` is a primary key: distinct inventory rows have distinct ids. -/
def partIdsUnique (db : DB) : Prop :=
  db.parts.Pairwise (fun p1 p2 => p1.part_id ≠ p2.part_id)

/-- `job_id` is a primary key: distinct job rows have distinct ids. -/
def jobIdsUnique (db : DB) : Prop :=
  db.jobs.Pairwise (fun j1 j2 => j1.job_id ≠ j2.job_id)

/-- `find?` through a keyed conditional update: updating exactly the rows
matching `q` with a key-preserving `g` maps the found row through `g`. -/
theorem find?_map_ite {α : Type} (l : List α) (q : α → Bool) (g : α → α)
    (hg : ∀ a, q (g a) = q a) :
    (l.map (fun a => if q a then g a else a)).find? q = (l.find? q).map g := by
  induction l with
  | nil => rfl
  | cons a l ih =>
    by_cases h : q a = true
    · simp [List.find?_cons, h, hg a]
    · simp only [Bool.not_eq_true] at h
      simp [List.find?_cons, h, ih]

/-- In a list with pairwise-distinct keys, two members with the same key
are the same row. -/
theorem eq_of_pairwise_key {α : Type} {key : α → Nat} {l : List α}
    (hu : l.Pairwise (fun a b => key a ≠ key b)) {a b : α}
    (ha : a ∈ l) (hb : b ∈ l) (hk : key a = key b) : a = b := by
  by_contra hne
  have hsym : Symmetric (fun a b : α => key a ≠ key b) :=
    fun x y h h' => h h'.symm
  exact (List.Pairwise.forall hsym hu ha hb hne) hk

/-- In a list with pairwise-distinct keys, `find?` by the key of a member
returns that member. -/
theorem find?_of_mem_unique {α : Type} (key : α → Nat) {l : List α}
    (hu : l.Pairwise (fun a b => key a ≠ key b)) {a : α} (ha : a ∈ l) :
    l.find? (fun x => key x == key a) = some a := by
  have hsome : (l.find? (fun x => key x == key a)).isSome := by
    rw [List.find?_isSome]
    exact ⟨a, ha, by simp⟩
  obtain ⟨b, hb⟩ := Option.isSome_iff_exists.mp hsome
  have hmem := List.mem_of_find?_eq_some hb
  have hkey : key b = key a := by simpa using List.find?_some hb
  rw [hb, eq_of_pairwise_key hu hmem ha hkey]

/-- `find?` skips a block in which it finds nothing. -/
theorem find?_append_left_none {α : Type} {l1 l2 : List α} {q : α → Bool}
    (h : l1.find? q = none) : (l1 ++ l2).find? q = l2.find? q := by
  rw [List.find?_append, h, Option.none_or]

/-! ## Sample database states used by witnesses and counterexamples -/

/-- A part with id 1, price 100 and 5 units in stock. -/
def part5 : Part :=
  { part_id := 1, part_code := "P-001", unit_price := 100,
    quantity_in_stock := 5, reorder_level := 2, last_updated := 0 }

/-- A part with id 1, price 100 and 2 units in stock. -/
def part2 : Part :=
  { part_id := 1, part_code := "P-001", unit_price := 100,
    quantity_in_stock := 2, reorder_level := 2, last_updated := 0 }

/-- An in-progress job with id 1 for request 1 and labor charge 500. -/
def job500 : ServiceJob :=
  { job_id := 1, request_id := 1, employee_id := none,
    job_status := "In Progress", labor_charge := 500,
    start_time := some 0, end_time := none }

/-- A pending request with id 1 for vehicle 7. -/
def request1 : ServiceRequest :=
  { request_id := 1, vehicle_id := 7, service_type := "Oil Change",
    problem_note := none, priority := "Normal", status := "Pending",
    request_date := 0 }

/-- An existing bill for job 1 with all amounts zero. -/
def bill0 : Bill :=
  { bill_id := 1, job_id := 1, subtotal_labor := 0, subtotal_parts := 0,
    tax := 0, total_amount := 0, payment_status := "Unpaid",
    bill_date := 0, payment_date := none }

/-- Empty database. -/
def dbEmpty : DB :=
  { requests := [], jobs := [], parts := [], usages := [], bills := [],
    nextRequestId := 1, nextJobId := 1, nextUsageId := 1, nextBillId := 1,
    now := 3 }

/-- Database with one job (labor 500), no usages and no bills. -/
def db500 : DB :=
  { dbEmpty with requests := [request1], jobs := [job500] }

/-- Database with one job and an existing bill for it. -/
def dbBilled : DB :=
  { dbEmpty with requests := [request1], jobs := [job500], bills := [bill0] }

/-- Database with one part holding 5 units of stock. -/
def dbStock5 : DB :=
  { dbEmpty with requests := [request1], jobs := [job500], parts := [part5] }

/-- Database with one part holding 2 units of stock. -/
def dbStock2 : DB :=
  { dbEmpty with requests := [request1], jobs := [job500], parts := [part2] }

/-! ## Claim theorems -/

/-- Claim C1: `create_request` inserts the ServiceRequest row and a
ServiceJob row referencing it as one atomic unit (a single transaction,
here one total function producing both rows in the post state), and the
returned request has status `Pending` while the associated job has status
`In Progress`, `start_time` set and `labor_charge = 0`. -/
theorem create_request_spawns_job_atomically (vehicle_id : Nat)
    (service_type : String) (problem_note : Option String) (priority : String)
    (emp : Option Nat) (db : DB) (res : CreateRequestResult) (post : DB)
    (h : create_request vehicle_id service_type problem_note priority
          "Pending" emp db = (res, post)) :
    post.requests = db.requests ++ [res.request] ∧
    (∃ job : ServiceJob,
      post.jobs = db.jobs ++ [job] ∧
      job.request_id = res.request.request_id ∧
      res.job_id = job.job_id ∧
      job.job_status = "In Progress" ∧
      job.start_time = some db.now ∧
      job.labor_charge = 0) ∧
    res.request.status = "Pending" ∧
    res.job_status = "In Progress" := by
  simp only [create_request, Prod.mk.injEq] at h
  obtain ⟨hres, hpost⟩ := h
  subst hres
  subst hpost
  exact ⟨rfl, ⟨_, rfl, rfl, rfl, rfl, rfl, rfl⟩, rfl, rfl⟩

/-- Result of the concrete Scenario-B style call used as witness. -/
def createResB : CreateRequestResult × DB :=
  create_request 7 "Oil Change" none "Normal" "Pending" none dbEmpty

/-- Witness for `create_request_spawns_job_atomically` at
`create(vehicle_id = 7, service_type = "Oil Change")` on the empty
database. -/
theorem create_request_spawns_job_atomically_witness :
    createResB.2.requests = dbEmpty.requests ++ [createResB.1.request] ∧
    (∃ job : ServiceJob,
      createResB.2.jobs = dbEmpty.jobs ++ [job] ∧
      job.request_id = createResB.1.request.request_id ∧
      createResB.1.job_id = job.job_id ∧
      job.job_status = "In Progress" ∧
      job.start_time = some dbEmpty.now ∧
      job.labor_charge = 0) ∧
    createResB.1.request.status = "Pending" ∧
    createResB.1.job_status = "In Progress" :=
  create_request_spawns_job_atomically 7 "Oil Change" none "Normal" none
    dbEmpty createResB.1 createResB.2 rfl

/-- Claim C2: `generate_bill` keeps at most one bill per job: when a bill
already exists for the job it fails with the already-billed error and
leaves the state unchanged (the check precedes the insert), and it
preserves the at-most-one-bill-per-job invariant. -/
theorem generate_bill_at_most_one (jid : Nat) (rate : Option ℚ) (db : DB) :
    ((∃ b ∈ db.bills, b.job_id = jid) →
      generate_bill jid rate db
        = ((none, some "Bill already exists for this job"), db)) ∧
    (atMostOneBillPerJob db → atMostOneBillPerJob (generate_bill jid rate db).2) := by
  constructor
  · rintro ⟨b, hb, hjid⟩
    have hsome : (lookupBillByJob db jid).isSome := by
      rw [lookupBillByJob, List.find?_isSome]
      exact ⟨b, hb, by simp [hjid]⟩
    obtain ⟨b', hb'⟩ := Option.isSome_iff_exists.mp hsome
    simp only [generate_bill, hb']
  · intro hinv
    rcases hfind : lookupBillByJob db jid with _ | b
    · rcases hjob : lookupJob db jid with _ | job
      · simpa only [generate_bill, hfind, hjob] using hinv
      · simp only [generate_bill, hfind, hjob, atMostOneBillPerJob]
        rw [List.pairwise_append]
        refine ⟨hinv, List.pairwise_singleton _ _, ?_⟩
        intro a ha b' hb'
        rw [List.mem_singleton] at hb'
        subst hb'
        have := (List.find?_eq_none.mp hfind) a ha
        simpa using this
    · simpa only [generate_bill, hfind] using hinv

/-- Witness for `generate_bill_at_most_one` on a database whose only job
already has a bill: the second `generate` fails `AlreadyBilled`, the
state is untouched and uniqueness is preserved. -/
theorem generate_bill_at_most_one_witness :
    generate_bill 1 none dbBilled
      = ((none, some "Bill already exists for this job"), dbBilled) ∧
    atMostOneBillPerJob (generate_bill 1 none dbBilled).2 := by
  have h := generate_bill_at_most_one 1 none dbBilled
  refine ⟨h.1 ⟨bill0, by simp [dbBilled, dbEmpty], rfl⟩, h.2 ?_⟩
  simp [atMostOneBillPerJob, dbBilled, dbEmpty]

/-- Claim C3: when the requested quantity exceeds the part's current
stock, `add_part_to_job` fails with the insufficient-stock error and the
state is unchanged — no usage record is inserted and the stock keeps its
prior value. -/
theorem add_part_insufficient_stock (jid pid : Nat) (qty : ℤ) (db : DB)
    (part : Part) (hp : lookupPart db pid = some part)
    (hlt : part.quantity_in_stock < qty) :
    add_part_to_job jid pid qty db
      = ((none, some ("Insufficient stock. Available: "
            ++ toString part.quantity_in_stock
            ++ ", Requested: " ++ toString qty)), db) := by
  simp only [add_part_to_job, hp, if_pos hlt]

/-- Witness for `add_part_insufficient_stock`: stock 2, request 5. -/
theorem add_part_insufficient_stock_witness :
    add_part_to_job 1 1 5 dbStock2
      = ((none, some ("Insufficient stock. Available: "
            ++ toString part2.quantity_in_stock
            ++ ", Requested: " ++ toString (5 : ℤ))), dbStock2) :=
  add_part_insufficient_stock 1 1 5 dbStock2 part2 rfl (by decide)

/-- Claim C5: for an existing not-yet-billed job, `generate_bill`
computes `subtotal_labor` as the job's labor charge, `subtotal_parts` as
the sum of `quantity_used * unit_price_at_time` over the job's usages,
`tax = round2 ((labor + parts) * rate)` with the default rate `0.18`, and
`total = round2 (labor + parts + tax)`, persisting the bill as `Unpaid`. -/
theorem generate_bill_amounts (jid : Nat) (db : DB) (job : ServiceJob)
    (hjob : lookupJob db jid = some job)
    (hnobill : lookupBillByJob db jid = none) :
    ∃ bill, (generate_bill jid none db).1.1 = some bill ∧
      bill.subtotal_labor = job.labor_charge ∧
      bill.subtotal_parts = get_total_parts_cost db jid ∧
      bill.tax = round2 ((job.labor_charge + get_total_parts_cost db jid)
          * DEFAULT_TAX_RATE) ∧
      bill.total_amount = round2 (job.labor_charge
          + get_total_parts_cost db jid + bill.tax) ∧
      bill.payment_status = "Unpaid" ∧
      (generate_bill jid none db).2.bills = db.bills ++ [bill] := by
  simp only [generate_bill, hjob, hnobill, Option.getD]
  exact ⟨_, rfl, rfl, rfl, rfl, rfl, rfl, rfl⟩

/-- Witness for `generate_bill_amounts`: a job with labor 500 and no
parts yields tax 90 and total 590 at the default rate. -/
theorem generate_bill_amounts_witness :
    (∃ bill, (generate_bill 1 none db500).1.1 = some bill ∧
      bill.subtotal_labor = job500.labor_charge ∧
      bill.subtotal_parts = get_total_parts_cost db500 1 ∧
      bill.tax = round2 ((job500.labor_charge + get_total_parts_cost db500 1)
          * DEFAULT_TAX_RATE) ∧
      bill.total_amount = round2 (job500.labor_charge
          + get_total_parts_cost db500 1 + bill.tax) ∧
      bill.payment_status = "Unpaid" ∧
      (generate_bill 1 none db500).2.bills = db500.bills ++ [bill]) ∧
    (generate_bill 1 none db500).1.1.map Bill.tax = some 90 ∧
    (generate_bill 1 none db500).1.1.map Bill.total_amount = some 590 := by
  refine ⟨generate_bill_amounts 1 db500 job500 rfl rfl, ?_, ?_⟩ <;>
  · simp [generate_bill, db500, dbEmpty, job500, lookupJob, lookupBillByJob,
      get_total_parts_cost, DEFAULT_TAX_RATE]
    norm_num [round2, roundHalfEven]

/-- Claim C9: `generate_bill` imposes no precondition on the job's
status: for an existing job that is still `In Progress` and has no bill,
it succeeds and appends a bill for that job. -/
theorem generate_bill_ignores_job_status (jid : Nat) (db : DB)
    (job : ServiceJob) (hjob : lookupJob db jid = some job)
    (_hstatus : job.job_status = "In Progress")
    (hnobill : lookupBillByJob db jid = none) :
    ∃ bill, (generate_bill jid none db).1 = (some bill, none) ∧
      bill.job_id = jid ∧
      (generate_bill jid none db).2.bills = db.bills ++ [bill] := by
  simp only [generate_bill, hjob, hnobill]
  exact ⟨_, rfl, rfl, rfl⟩

/-- Witness for `generate_bill_ignores_job_status` on a database whose
only job is `In Progress` and unbilled. -/
theorem generate_bill_ignores_job_status_witness :
    ∃ bill, (generate_bill 1 none db500).1 = (some bill, none) ∧
      bill.job_id = 1 ∧
      (generate_bill 1 none db500).2.bills = db500.bills ++ [bill] :=
  generate_bill_ignores_job_status 1 db500 job500 rfl rfl rfl

/-- Claim C4: a successful `add_part_to_job` followed by
`remove_part_from_job` of the created usage record restores the part's
`quantity_in_stock` to exactly its pre-add value.  The freshness
hypothesis says the generated-identity counter has not been reused, which
holds of every reachable database. -/
theorem add_remove_roundtrip (jid pid : Nat) (qty : ℤ) (db : DB)
    (part : Part) (hp : lookupPart db pid = some part)
    (hq : qty ≤ part.quantity_in_stock)
    (hfresh : ∀ u ∈ db.usages, u.job_part_id ≠ db.nextUsageId) :
    ∃ usage, (add_part_to_job jid pid qty db).1.1 = some usage ∧
      (lookupPart (remove_part_from_job usage.job_part_id
          (add_part_to_job jid pid qty db).2).2 pid).map Part.quantity_in_stock
        = some part.quantity_in_stock := by
  have hnot : ¬ (part.quantity_in_stock < qty) := not_lt.mpr hq
  have hfind : (db.usages.find?
      (fun u => u.job_part_id == db.nextUsageId)) = none := by
    rw [List.find?_eq_none]
    intro u hu
    simpa using hfresh u hu
  simp only [add_part_to_job, hp, if_neg hnot]
  refine ⟨_, rfl, ?_⟩
  rw [remove_part_from_job]
  rw [lookupUsage]
  dsimp only
  rw [find?_append_left_none hfind]
  rw [List.find?_cons_of_pos _ (by simp)]
  dsimp only
  rw [lookupPart]
  dsimp only
  rw [find?_map_ite _ (fun p : Part => p.part_id == pid)
    (fun p : Part => { p with quantity_in_stock := p.quantity_in_stock + qty,
                              last_updated := db.now }) (fun a => rfl)]
  rw [find?_map_ite _ (fun p : Part => p.part_id == pid)
    (fun p : Part => { p with quantity_in_stock := p.quantity_in_stock - qty,
                              last_updated := db.now }) (fun a => rfl)]
  rw [lookupPart] at hp
  rw [hp]
  simp

/-- Witness for `add_remove_roundtrip`: stock 5, add 3, remove, stock 5
again. -/
theorem add_remove_roundtrip_witness :
    ∃ usage, (add_part_to_job 1 1 3 dbStock5).1.1 = some usage ∧
      (lookupPart (remove_part_from_job usage.job_part_id
          (add_part_to_job 1 1 3 dbStock5).2).2 1).map Part.quantity_in_stock
        = some part5.quantity_in_stock :=
  add_remove_roundtrip 1 1 3 dbStock5 part5 rfl (by decide)
    (by intro u hu; simp [dbStock5, dbEmpty] at hu)

/-- Claim C6 (amended): `total_amount` is never independently settable —
it is always recomputed from the three amount fields — but the rounding
differs by path: `generate_bill` stores `round2 (labor + parts + tax)`
while `update_bill` stores the exact, unrounded sum
`labor + parts + tax`. -/
theorem bill_total_recomputed (jid bid : Nat) (rate l p t : Option ℚ)
    (db : DB) :
    (∀ b, (generate_bill jid rate db).1.1 = some b →
      b.total_amount = round2 (b.subtotal_labor + b.subtotal_parts + b.tax)) ∧
    (∀ b, (update_bill bid l p t db).1 = some b →
      b.total_amount = b.subtotal_labor + b.subtotal_parts + b.tax) := by
  constructor
  · intro b hb
    rcases hfind : lookupBillByJob db jid with _ | b0
    · rcases hjob : lookupJob db jid with _ | job
      · simp [generate_bill, hfind, hjob] at hb
      · simp only [generate_bill, hfind, hjob, Option.some.injEq] at hb
        subst hb
        rfl
    · simp [generate_bill, hfind] at hb
  · intro b hb
    rw [update_bill] at hb
    rcases hcur : lookupBill db bid with _ | current
    · rw [hcur] at hb
      simp at hb
    · rw [hcur] at hb
      dsimp only [lookupBill] at hb
      have hmem := List.mem_of_find?_eq_some hb
      obtain ⟨a, _ha, hfa⟩ := List.mem_map.mp hmem
      by_cases hqa : (a.bill_id == bid) = true
      · rw [if_pos hqa] at hfa
        subst hfa
        rfl
      · rw [if_neg hqa] at hfa
        subst hfa
        exact absurd (List.find?_some hb) hqa

/-- Witness for `bill_total_recomputed`, instantiating the generate path
on an unbilled job and the update path on an existing bill. -/
theorem bill_total_recomputed_witness :
    ((generate_bill 1 none db500).1.1.map (fun b =>
        decide (b.total_amount
          = round2 (b.subtotal_labor + b.subtotal_parts + b.tax))))
      = some true ∧
    ((update_bill 1 (some 500) none none dbBilled).1.map (fun b =>
        decide (b.total_amount = b.subtotal_labor + b.subtotal_parts + b.tax)))
      = some true := by
  have h1 := (bill_total_recomputed 1 1 none (some 500) none none db500).1
  have h2 := (bill_total_recomputed 1 1 none (some 500) none none dbBilled).2
  constructor
  · rcases hb : (generate_bill 1 none db500).1.1 with _ | b
    · exact absurd hb (by simp [generate_bill, db500, dbEmpty, lookupJob,
        lookupBillByJob, List.find?, job500])
    · simp [h1 b hb]
  · rcases hb : (update_bill 1 (some 500) none none dbBilled).1 with _ | b
    · exact absurd hb (by simp [update_bill, dbBilled, dbEmpty, lookupBill,
        List.find?, bill0])
    · simp [h2 b hb]

/-- Counterexample to claim C6 as stated: after
`update_bill(tax := 1/200)` on a zero bill, the stored total is `1/200`,
while the rounded sum of the three fields is `0` — the update path does
not round, so `total_amount = round2 (labor + parts + tax)` fails. -/
theorem bill_total_rounding_cex :
    (update_bill 1 none none (some (1/200)) dbBilled).1.map Bill.total_amount
      = some (1/200) ∧
    ((update_bill 1 none none (some (1/200)) dbBilled).1.map (fun b =>
        round2 (b.subtotal_labor + b.subtotal_parts + b.tax))) = some 0 ∧
    (1 : ℚ)/200 ≠ 0 := by
  refine ⟨?_, ?_, by norm_num⟩
  · simp [update_bill, dbBilled, dbEmpty, lookupBill, List.find?, bill0]
  · simp [update_bill, dbBilled, dbEmpty, lookupBill, List.find?, bill0]
    norm_num [round2, roundHalfEven]

/-- Claim C10: `remove_part_from_job` mutates only the deleted usage
record and the referenced part's `quantity_in_stock` and `last_updated`;
bills, requests and jobs are untouched — in particular a bill already
generated for the job keeps its pre-removal amounts. -/
theorem remove_usage_frame (uid : Nat) (db : DB) :
    (remove_part_from_job uid db).2.bills = db.bills ∧
    (remove_part_from_job uid db).2.requests = db.requests ∧
    (remove_part_from_job uid db).2.jobs = db.jobs ∧
    ∀ usage, lookupUsage db uid = some usage →
      (remove_part_from_job uid db).2.usages
        = db.usages.filter (fun u => u.job_part_id != uid) ∧
      (remove_part_from_job uid db).2.parts
        = db.parts.map (fun p =>
            if p.part_id == usage.part_id then
              { p with quantity_in_stock :=
                         p.quantity_in_stock + usage.quantity_used,
                       last_updated := db.now }
            else p) := by
  rcases hfind : lookupUsage db uid with _ | usage
  · simp [remove_part_from_job, hfind]
  · refine ⟨?_, ?_, ?_, ?_⟩
    · rw [remove_part_from_job, hfind]
    · rw [remove_part_from_job, hfind]
    · rw [remove_part_from_job, hfind]
    · intro u hu
      cases hu
      rw [remove_part_from_job, hfind]
      exact ⟨rfl, rfl⟩

/-- The usage record deleted in the C10 witness. -/
def usage3 : JobPartUsage :=
  { job_part_id := 1, job_id := 1, part_id := 1, quantity_used := 3,
    unit_price_at_time := 100 }

/-- Database with one usage for a job that already has a bill. -/
def dbUsed : DB :=
  { dbEmpty with requests := [request1], jobs := [job500],
                 parts := [part2], usages := [usage3], bills := [bill0],
                 nextUsageId := 2 }

/-- Witness for `remove_usage_frame`: removing the usage of a billed job
leaves the bill row untouched. -/
theorem remove_usage_frame_witness :
    (remove_part_from_job 1 dbUsed).2.bills = dbUsed.bills ∧
    (remove_part_from_job 1 dbUsed).2.requests = dbUsed.requests ∧
    (remove_part_from_job 1 dbUsed).2.jobs = dbUsed.jobs ∧
    (remove_part_from_job 1 dbUsed).2.usages
      = dbUsed.usages.filter (fun u => u.job_part_id != 1) ∧
    (remove_part_from_job 1 dbUsed).2.parts
      = dbUsed.parts.map (fun p =>
          if p.part_id == usage3.part_id then
            { p with quantity_in_stock :=
                       p.quantity_in_stock + usage3.quantity_used,
                     last_updated := dbUsed.now }
          else p) := by
  have h := remove_usage_frame 1 dbUsed
  have h4 := h.2.2.2 usage3 rfl
  exact ⟨h.1, h.2.1, h.2.2.1, h4.1, h4.2⟩

/-- Counterexample to claim C7 as stated: the delta-mode stock update
applies a negative delta larger than the stock with no rejection and no
floor — on a part with 2 units, `quantity_change = -5` is accepted
(HTTP 200, no error) and leaves `quantity_in_stock = -3 < 0`. -/
theorem stock_goes_negative_cex :
    (update_stock_route 1 (StockPayload.delta (-5)) dbStock2).1.error = none ∧
    (update_stock_route 1 (StockPayload.delta (-5)) dbStock2).1.httpStatus = 200 ∧
    ((update_stock_route 1 (StockPayload.delta (-5)) dbStock2).2.parts.map
        Part.quantity_in_stock) = [-3] ∧
    (-3 : ℤ) < 0 := by
  refine ⟨rfl, rfl, ?_, by decide⟩
  rfl

/-- Claim C7 (amended): `quantity_in_stock` stays nonnegative under
`add_part_to_job` (sufficiency-checked), `remove_part_from_job`
(restores a recorded nonnegative quantity) and the absolute-mode stock
route (which rejects a negative quantity); the delta-mode update is the
exception exhibited by the counterexample. -/
theorem stock_nonneg_preserved (jid pid : Nat) (qty : ℤ) (uid pid2 : Nat)
    (q : ℤ) (db : DB) (huniq : partIdsUnique db) (hs : stockNonneg db)
    (hus : usagesNonneg db) :
    stockNonneg (add_part_to_job jid pid qty db).2 ∧
    stockNonneg (remove_part_from_job uid db).2 ∧
    stockNonneg (update_stock_route pid2 (StockPayload.absolute q) db).2 := by
  refine ⟨?_, ?_, ?_⟩
  · rcases hp : lookupPart db pid with _ | part
    · simpa only [add_part_to_job, hp] using hs
    · by_cases hlt : part.quantity_in_stock < qty
      · simpa only [add_part_to_job, hp, if_pos hlt] using hs
      · simp only [add_part_to_job, hp, if_neg hlt]
        intro p' hp'
        obtain ⟨p, hpmem, rfl⟩ := List.mem_map.mp hp'
        by_cases hid : (p.part_id == pid) = true
        · rw [if_pos hid]
          have hpartmem : part ∈ db.parts := List.mem_of_find?_eq_some hp
          have hpkey : part.part_id = pid := by
            simpa using List.find?_some hp
          have hpk : p.part_id = part.part_id := by
            rw [hpkey]; simpa using hid
          have : p = part := eq_of_pairwise_key huniq hpmem hpartmem hpk
          subst this
          simpa using sub_nonneg.mpr (not_lt.mp hlt)
        · rw [if_neg hid]
          exact hs p hpmem
  · rcases hfind : lookupUsage db uid with _ | usage
    · simpa only [remove_part_from_job, hfind] using hs
    · simp only [remove_part_from_job, hfind]
      intro p' hp'
      obtain ⟨p, hpmem, rfl⟩ := List.mem_map.mp hp'
      have husq : 0 ≤ usage.quantity_used :=
        hus usage (List.mem_of_find?_eq_some hfind)
      by_cases hid : (p.part_id == usage.part_id) = true
      · rw [if_pos hid]
        simpa using add_nonneg (hs p hpmem) husq
      · rw [if_neg hid]
        exact hs p hpmem
  · by_cases hmiss : (lookupPart db pid2).isNone = true
    · simpa only [update_stock_route, if_pos hmiss] using hs
    · by_cases hneg : q < 0
      · simpa only [update_stock_route, if_neg hmiss, if_pos hneg] using hs
      · simp only [update_stock_route, if_neg hmiss, if_neg hneg, set_stock]
        intro p' hp'
        obtain ⟨p, hpmem, rfl⟩ := List.mem_map.mp hp'
        by_cases hid : (p.part_id == pid2) = true
        · rw [if_pos hid]
          simpa using not_lt.mp hneg
        · rw [if_neg hid]
          exact hs p hpmem

/-- Witness for `stock_nonneg_preserved` on the two-unit inventory. -/
theorem stock_nonneg_preserved_witness :
    stockNonneg (add_part_to_job 1 1 1 dbStock2).2 ∧
    stockNonneg (remove_part_from_job 1 dbStock2).2 ∧
    stockNonneg (update_stock_route 1 (StockPayload.absolute 0) dbStock2).2 := by
  refine stock_nonneg_preserved 1 1 1 1 1 0 dbStock2 ?_ ?_ ?_
  · simp [partIdsUnique, dbStock2, dbEmpty]
  · intro p hp
    simp only [dbStock2, dbEmpty, List.mem_singleton] at hp
    subst hp
    decide
  · intro u hu
    simp [dbStock2, dbEmpty] at hu

/-- The maximum-`job_id` fold of `get_job_for_request` only ever returns
an element of the list or the accumulator. -/
theorem foldl_pick_mem (l : List ServiceJob) :
    ∀ (acc : Option ServiceJob) (j : ServiceJob),
      l.foldl (fun acc j =>
        match acc with
        | none => some j
        | some k => if k.job_id < j.job_id then some j else some k) acc
        = some j →
      j ∈ l ∨ acc = some j := by
  induction l with
  | nil =>
    intro acc j h
    exact Or.inr h
  | cons a l ih =>
    intro acc j h
    rw [List.foldl_cons] at h
    rcases ih _ j h with hmem | hacc
    · exact Or.inl (List.mem_cons_of_mem _ hmem)
    · cases acc with
      | none =>
        cases hacc
        exact Or.inl (List.mem_cons_self _ _)
      | some k =>
        by_cases hk : k.job_id < a.job_id
        · rw [show (match some k with
              | none => some a
              | some k => if k.job_id < a.job_id then some a else some k)
              = if k.job_id < a.job_id then some a else some k from rfl,
            if_pos hk] at hacc
          cases hacc
          exact Or.inl (List.mem_cons_self _ _)
        · rw [show (match some k with
              | none => some a
              | some k => if k.job_id < a.job_id then some a else some k)
              = if k.job_id < a.job_id then some a else some k from rfl,
            if_neg hk] at hacc
          exact Or.inr hacc

/-- A job returned by `get_job_for_request` is a row of the jobs table. -/
theorem get_job_for_request_mem (rid : Nat) (db : DB) (j : ServiceJob)
    (h : get_job_for_request rid db = some j) : j ∈ db.jobs := by
  rw [get_job_for_request] at h
  rcases foldl_pick_mem _ none j h with hmem | hacc
  · exact (List.mem_filter.mp hmem).1
  · exact Option.noConfusion hacc

/-- Counterexample to claim C8 as stated: on a request whose job is
already billed, driving the status to `Completed` leaves the response
with no error, no bill and a plain success message — the billing failure
(no bill was generated, the billing table is unchanged) is not reported
by the operation. -/
theorem orchestrator_billing_failure_unreported_cex :
    (update_request_status_route 1 "Completed" 500 dbBilled).1.error = none ∧
    (update_request_status_route 1 "Completed" 500 dbBilled).1.message
      = some "Status updated successfully" ∧
    (update_request_status_route 1 "Completed" 500 dbBilled).1.bill = none ∧
    (update_request_status_route 1 "Completed" 500 dbBilled).2.bills
      = dbBilled.bills :=
  ⟨rfl, rfl, rfl, rfl⟩

/-- Claim C8 (amended): when `updateStatus` drives a request to
`Completed` and the final billing step fails because a bill already
exists, nothing is rolled back — the request stays `Completed`, the job
keeps the new labor charge, completed status and end time, and the bill
table is untouched; the billing failure is, however, silently swallowed
rather than reported: the response carries no error, no bill, HTTP 200
and the plain success message. -/
theorem orchestrator_no_rollback (rid : Nat) (lc : ℚ) (db : DB)
    (r : ServiceRequest) (j : ServiceJob) (b : Bill)
    (hreq : lookupRequest db rid = some r)
    (hjob : get_job_for_request rid db = some j)
    (hju : jobIdsUnique db)
    (hbill : lookupBillByJob db j.job_id = some b) :
    (lookupRequest (update_request_status_route rid "Completed" lc db).2 rid).map
        ServiceRequest.status = some "Completed" ∧
    lookupJob (update_request_status_route rid "Completed" lc db).2 j.job_id
      = some { j with labor_charge := lc, job_status := "Completed",
                      end_time := some db.now } ∧
    (update_request_status_route rid "Completed" lc db).2.bills = db.bills ∧
    (update_request_status_route rid "Completed" lc db).1.httpStatus = 200 ∧
    (update_request_status_route rid "Completed" lc db).1.error = none ∧
    (update_request_status_route rid "Completed" lc db).1.bill = none ∧
    (update_request_status_route rid "Completed" lc db).1.message
      = some "Status updated successfully" := by
  have hcontains : (valid_statuses.contains "Completed") = true := by decide
  rw [get_job_for_request] at hjob
  rw [lookupBillByJob] at hbill
  have hmem : j ∈ db.jobs := by
    rcases foldl_pick_mem _ none j hjob with hm | ha
    · exact (List.mem_filter.mp hm).1
    · exact Option.noConfusion ha
  simp only [update_request_status_route, hreq, Option.isNone_some,
    Bool.false_eq_true, if_false, hcontains, Bool.not_true, if_true,
    sr_update_request_status, get_job_for_request, beq_self_eq_true,
    if_pos]
  rw [hjob]
  simp only [update_labor_charge, update_job_status, generate_bill,
    lookupBillByJob, Option.isNone_some, Bool.and_false, Bool.false_eq_true,
    if_false, lookupJob]
  rw [hbill]
  dsimp only
  refine ⟨?_, ?_, rfl, rfl, rfl, rfl, rfl⟩
  · rw [lookupRequest] at hreq ⊢
    dsimp only
    rw [find?_map_ite _ (fun x : ServiceRequest => x.request_id == rid)
      (fun x : ServiceRequest => { x with status := "Completed" })
      (fun a => rfl)]
    rw [hreq]
    rfl
  · dsimp only
    rw [find?_map_ite _ (fun x : ServiceJob => x.job_id == j.job_id)
      (fun x : ServiceJob => { x with job_status := "Completed",
                                      end_time := some db.now })
      (fun a => rfl)]
    rw [find?_map_ite _ (fun x : ServiceJob => x.job_id == j.job_id)
      (fun x : ServiceJob => { x with labor_charge := lc }) (fun a => rfl)]
    rw [find?_of_mem_unique ServiceJob.job_id hju hmem]
    rfl

/-- Witness for `orchestrator_no_rollback` on the already-billed
database. -/
theorem orchestrator_no_rollback_witness :
    (lookupRequest (update_request_status_route 1 "Completed" 500 dbBilled).2 1).map
        ServiceRequest.status = some "Completed" ∧
    lookupJob (update_request_status_route 1 "Completed" 500 dbBilled).2
        job500.job_id
      = some { job500 with labor_charge := 500, job_status := "Completed",
                           end_time := some dbBilled.now } ∧
    (update_request_status_route 1 "Completed" 500 dbBilled).2.bills
      = dbBilled.bills ∧
    (update_request_status_route 1 "Completed" 500 dbBilled).1.httpStatus = 200 ∧
    (update_request_status_route 1 "Completed" 500 dbBilled).1.error = none ∧
    (update_request_status_route 1 "Completed" 500 dbBilled).1.bill = none ∧
    (update_request_status_route 1 "Completed" 500 dbBilled).1.message
      = some "Status updated successfully" :=
  orchestrator_no_rollback 1 500 dbBilled request1 job500 bill0 rfl rfl
    (by simp [jobIdsUnique, dbBilled, dbEmpty]) rfl

end AutoIMS
